import Mathlib

/-!
Shallow embedding of `billcalc.py`, a shared-household bill-splitting
calculator.  Dates are modelled as year/month/day triples with
`Date.toOrdinal` mirroring Python's proleptic-Gregorian `date.toordinal`;
date comparison and subtraction in the source go through the ordinal.
Monetary amounts are modelled as rationals; Python's `round(x, 2)` is
modelled as round-half-to-even at two decimal places (`pyRound2`).
Fallible constructors and computations return `Except`; the unbound
local variable reachable in `Tenant.owes` and its `sys.exit` branch are
modelled as explicit error values.
-/

namespace BillCalc

/-- Calendar date, as Python's `datetime.date` triple. -/
structure Date where
  year : Nat
  month : Nat
  day : Nat
deriving DecidableEq, Repr

/-- Gregorian leap-year rule, as in Python's `calendar.isleap`. -/
def isLeapYear (y : Nat) : Bool :=
  y % 4 == 0 && (y % 100 != 0 || y % 400 == 0)

/-- Length of month `m` of year `y` (Gregorian). -/
def daysInMonth (y m : Nat) : Nat :=
  if m = 2 then (if isLeapYear y then 29 else 28)
  else if m = 4 ∨ m = 6 ∨ m = 9 ∨ m = 11 then 30
  else 31

/-- Days in year `y` strictly before month `m`. -/
def daysBeforeMonth (y m : Nat) : Nat :=
  (List.range (m - 1)).foldl (fun acc i => acc + daysInMonth y (i + 1)) 0

/-- Python's `date.toordinal`: day count since 0001-01-01 = day 1 of the
proleptic Gregorian calendar. -/
def Date.toOrdinal (dt : Date) : Nat :=
  let y := dt.year - 1
  y * 365 + y / 4 - y / 100 + y / 400 + daysBeforeMonth dt.year dt.month + dt.day

/-- Property configuration: name, tenant headcount, category-to-provider
map (`Property.__init__`; the map is a Python dict, modelled as an
association list with `List.lookup`). -/
structure Property where
  name : String
  tenant_count : Int
  bill_types : List (String × String)
deriving DecidableEq, Repr

/-- Failure modes of `Bill.__init__`: the `ZeroDivisionError` raised by
`self.amount / self.total_days()` when the interval is empty, and the
`Exception` raised when the lowercased category is missing from the
property's provider map. -/
inductive BillError where
  | zeroDivision
  | invalidCategory
deriving DecidableEq, Repr

/-- A constructed bill (`Bill.__init__`'s resulting attributes). -/
structure Bill where
  category : String
  amount : ℚ
  from_date : Date
  to_date : Date
  per_day : ℚ
  num_people_in_house : Int
  supplier : String
  unique_id : String
deriving DecidableEq, Repr

/-- Embeds `Bill.total_days`: `(self.to_date - self.from_date).days`, i.e. the
(possibly negative) ordinal difference. -/
def Bill.total_days (b : Bill) : Int :=
  (b.to_date.toOrdinal : Int) - (b.from_date.toOrdinal : Int)

/-- Embeds `Bill.__init__`: stores category, amount and the interval, computes
`per_day = amount / total_days()` (raising `ZeroDivisionError` when the
interval is empty — this line runs BEFORE the category check), snapshots
the property's tenant count, then validates `category.lower()` against
the provider map and resolves the supplier from it. -/
def Bill.make (category : String) (amount : ℚ) (from_date to_date : Date)
    (property_object : Property) (unique_id : String) : Except BillError Bill :=
  let td : Int := (to_date.toOrdinal : Int) - (from_date.toOrdinal : Int)
  if td = 0 then .error .zeroDivision
  else
    match property_object.bill_types.lookup category.toLower with
    | none => .error .invalidCategory
    | some sup =>
        .ok { category := category
              amount := amount
              from_date := from_date
              to_date := to_date
              per_day := amount / (td : ℚ)
              num_people_in_house := property_object.tenant_count
              supplier := sup
              unique_id := unique_id }

/-- Embeds `Bill.__eq__`: two bills are equal when amount, both endpoints and
category coincide (used to reject duplicate bills). -/
def billEq (a b : Bill) : Bool :=
  a.amount == b.amount && a.from_date == b.from_date
    && a.to_date == b.to_date && a.category == b.category

/-- A tenant (`Tenant.__init__`'s resulting attributes). -/
structure Tenant where
  name : String
  entered_house : Date
  still_at_address : Bool
  left_house : Date
  unique_id : String
deriving DecidableEq, Repr

/-- Embeds `Tenant.get_from_date`. -/
def Tenant.get_from_date (t : Tenant) : Date := t.entered_house

/-- Embeds `Tenant.get_to_date`: today's date while the tenant is still
resident, else the stored departure date. -/
def Tenant.get_to_date (t : Tenant) (today : Date) : Date :=
  if t.still_at_address then today else t.left_house

/-- Round-half-to-even to an integer, the behaviour of Python's `round`
at exactly representable inputs (banker's rounding). -/
def roundHalfEvenInt (q : ℚ) : Int :=
  let f := ⌊q⌋
  if q - (f : ℚ) < 1 / 2 then f
  else if q - (f : ℚ) > 1 / 2 then f + 1
  else if f % 2 = 0 then f else f + 1

/-- Python's `round(x, 2)`: round-half-to-even at two decimal places. -/
def pyRound2 (q : ℚ) : ℚ := ((roundHalfEvenInt (q * 100) : Int) : ℚ) / 100

/-- Modelled from the spec: `round(x, 2)` read as round-half-UP at two
decimal places, the convention §4.5 of the spec prescribes for currency.
Kept for comparison with `pyRound2`, the code's actual rounding. -/
def specRoundHalfUp2 (q : ℚ) : ℚ := ((⌊q * 100 + 1 / 2⌋ : Int) : ℚ) / 100

/-- One entry of the payee list: `(tenant name, days owing, share)`. -/
structure Payee where
  name : String
  days : Int
  amount : ℚ
deriving DecidableEq, Repr

/-- Failure modes of `Tenant.owes`: the `sys.exit` branch for a bill
ending after today, and the fall-through leaving `tenant_pays_to`
unbound (`UnboundLocalError` at the `days_owing` line). -/
inductive OwesError where
  | billEndsAfterToday
  | unboundLocal
deriving DecidableEq, Repr

/-- Tail of `Tenant.owes` once `tenant_pays_from` and `tenant_pays_to`
are assigned: `days_owing` and, when positive, the rounded share
`round((days_owing / total_days) * (amount / num_people_in_house), 2)`;
otherwise `None`. -/
def owesPayee (t : Tenant) (input_bill : Bill)
    (tenant_pays_from tenant_pays_to : Int) : Option Payee :=
  let days_owing := tenant_pays_to - tenant_pays_from
  if days_owing > 0 then
    some { name := t.name
           days := days_owing
           amount := pyRound2 (((days_owing : ℚ) / (input_bill.total_days : ℚ))
             * (input_bill.amount / (input_bill.num_people_in_house : ℚ))) }
  else none

/-- Embeds `Tenant.owes`: `tenant_pays_from` is the later of tenant entry and
bill start; `tenant_pays_to` is assigned by an `elif` chain that covers
only the cases "tenant end ≥ bill end" and "tenant entry < bill start" —
otherwise the code either `sys.exit`s (bill end after today) or reads
the unbound `tenant_pays_to`. -/
def Tenant.owes (t : Tenant) (input_bill : Bill) (today : Date) :
    Except OwesError (Option Payee) :=
  let tFrom : Int := (t.get_from_date.toOrdinal : Int)
  let bFrom : Int := (input_bill.from_date.toOrdinal : Int)
  let tTo : Int := ((t.get_to_date today).toOrdinal : Int)
  let bTo : Int := (input_bill.to_date.toOrdinal : Int)
  let tenant_pays_from : Int := if tFrom ≤ bFrom then bFrom else tFrom
  if tTo ≥ bTo then
    .ok (owesPayee t input_bill tenant_pays_from bTo)
  else if tFrom < bFrom then
    .ok (owesPayee t input_bill tenant_pays_from tTo)
  else if bTo > (today.toOrdinal : Int) then
    .error .billEndsAfterToday
  else
    .error .unboundLocal

/-- The loop of `who_owes_what`: ask each tenant what they owe, keeping
the non-`None` results in order; an exception from `owes` aborts. -/
def collectPayees (bill : Bill) (today : Date) :
    List Tenant → Except OwesError (List Payee)
  | [] => .ok []
  | t :: ts =>
    match t.owes bill today with
    | .error e => .error e
    | .ok r =>
      match collectPayees bill today ts with
      | .error e => .error e
      | .ok rest =>
        match r with
        | some p => .ok (p :: rest)
        | none => .ok rest

/-- Embeds `who_owes_what`: the payee list, the accumulated total of the
rounded shares, and the reported difference `total - bill.amount`. -/
def who_owes_what (bill : Bill) (tenants : List Tenant) (today : Date) :
    Except OwesError (List Payee × ℚ × ℚ) :=
  match collectPayees bill today tenants with
  | .error e => .error e
  | .ok payees =>
    let total_check := (payees.map Payee.amount).sum
    .ok (payees, total_check, total_check - bill.amount)

/-- Embeds `add_bill` (on already-parsed arguments): construct the bill, return
the list unchanged (with a duplicate notification, modelled as the
boolean) when an equal bill is already present, else append. -/
def add_bill (property_conf : Property) (amount : ℚ)
    (start_date end_date : Date) (bill_type : String) (uid : String)
    (bill_list : List Bill) : Except BillError (List Bill × Bool) :=
  match Bill.make bill_type amount start_date end_date property_conf uid with
  | .error e => .error e
  | .ok bill =>
    if bill_list.any (fun other_bill => billEq other_bill bill) then
      .ok (bill_list, true)
    else
      .ok (bill_list ++ [bill], false)

/-- The serialized shape of one bill in the JSON document
(`Bill.to_json`'s dictionary; dates kept as year/month/day triples). -/
structure BillJson where
  category : String
  amount : ℚ
  from_date : Date
  to_date : Date
  supplier : String
deriving DecidableEq, Repr

/-- The serialized shape of one tenant (`Tenant.to_json`). -/
structure TenantJson where
  name : String
  entered_house : Date
  left_house : Date
  still_at_address : Bool
deriving DecidableEq, Repr

/-- The serialized property block (`Property.to_json`). -/
structure PropertyJson where
  name : String
  tenant_count : Int
  bill_types : List (String × String)
deriving DecidableEq, Repr

/-- The whole persisted JSON document. -/
structure StoreJson where
  property : PropertyJson
  tenants : List (String × TenantJson)
  bills : List (String × BillJson)
deriving DecidableEq, Repr

/-- Embeds `Property.to_json`. -/
def Property.to_json (p : Property) : PropertyJson :=
  ⟨p.name, p.tenant_count, p.bill_types⟩

/-- Embeds `Bill.to_json`: a `(unique id, record)` pair; the unique id is
serialized as its string form. -/
def Bill.to_json (b : Bill) : String × BillJson :=
  (b.unique_id, ⟨b.category, b.amount, b.from_date, b.to_date, b.supplier⟩)

/-- Embeds `Tenant.to_json`. -/
def Tenant.to_json (t : Tenant) : String × TenantJson :=
  (t.unique_id, ⟨t.name, t.entered_house, t.left_house, t.still_at_address⟩)

/-- Embeds `save_json`: serialize property, tenants and bills into one document
(file writing itself is peripheral and out of scope). -/
def save_json (tenant_list : List Tenant) (property_conf : Property)
    (bill_list : List Bill) : StoreJson :=
  ⟨property_conf.to_json, tenant_list.map Tenant.to_json,
    bill_list.map Bill.to_json⟩

/-- Bill-loading loop of `load_json`: each stored record is passed back
through `Bill.__init__` against the loaded property (the stored supplier
field is read but the constructor re-resolves it from the map), so a bad
category or empty interval raises. -/
def loadBills (property_conf : Property) :
    List (String × BillJson) → Except BillError (List Bill)
  | [] => .ok []
  | (uid, bj) :: rest =>
    match Bill.make bj.category bj.amount bj.from_date bj.to_date property_conf uid with
    | .error e => .error e
    | .ok b =>
      match loadBills property_conf rest with
      | .error e => .error e
      | .ok bs => .ok (b :: bs)

/-- Tenant reconstruction in `load_json`'s loop: the stored fields are
passed back through `Tenant.__init__` together with the stored key. -/
def tenantOfJson (p : String × TenantJson) : Tenant :=
  ⟨p.2.name, p.2.entered_house, p.2.still_at_address, p.2.left_house, p.1⟩

/-- Embeds `load_json` (on an already-parsed document, no property override):
rebuild the property, every tenant, and every bill via `Bill.__init__`. -/
def load_json (s : StoreJson) :
    Except BillError (List Tenant × Property × List Bill) :=
  let property_conf : Property :=
    ⟨s.property.name, s.property.tenant_count, s.property.bill_types⟩
  let tenant_list := s.tenants.map tenantOfJson
  match loadBills property_conf s.bills with
  | .error e => .error e
  | .ok bill_list => .ok (tenant_list, property_conf, bill_list)

/-! Concrete instances used to exercise the model: a two-person property
with an electricity provider, a one-person property with a gas provider,
and a handful of tenants around a January 2024 bill. -/

/-- Two-person property whose provider map knows only `electricity`. -/
def acmeProperty : Property := ⟨"house", 2, [("electricity", "acme")]⟩

/-- One-person property whose provider map knows only `gas`. -/
def gasProperty : Property := ⟨"h", 1, [("gas", "agl")]⟩

/-- The $100 electricity bill for 2024-01-01 → 2024-01-31 on `acmeProperty`,
exactly as `Bill.make` constructs it (30 days, per-day rate 10/3). -/
def januaryBill : Bill :=
  ⟨"electricity", 100, ⟨2024, 1, 1⟩, ⟨2024, 1, 31⟩, 10 / 3, 2, "acme", "b8"⟩

/-- Tenant resident for the whole January billing period. -/
def tenantAlice : Tenant := ⟨"alice", ⟨2023, 12, 1⟩, false, ⟨2024, 2, 29⟩, "ta"⟩

/-- Tenant resident 2024-01-16 → 2024-01-31 (15 of the 30 days). -/
def tenantBella : Tenant := ⟨"bella", ⟨2024, 1, 16⟩, false, ⟨2024, 1, 31⟩, "tb"⟩

/-- Tenant whose tenancy 2024-01-10 → 2024-01-20 is strictly inside the
January bill: entry after the bill start and departure before its end. -/
def tenantBob : Tenant := ⟨"bob", ⟨2024, 1, 10⟩, false, ⟨2024, 1, 20⟩, "t1"⟩

/-- Tenant resident 2023-12-31 → 2024-01-02, one day of a 2-day bill. -/
def tenantCarl : Tenant := ⟨"carl", ⟨2023, 12, 31⟩, false, ⟨2024, 1, 2⟩, "tc"⟩

/-- Tenant whose residency starts after the January bill ends. -/
def tenantDana : Tenant := ⟨"dana", ⟨2024, 3, 1⟩, false, ⟨2024, 6, 1⟩, "td"⟩

/-- Decidable equality for `Except`, so concrete runs of the fallible
operations can be checked by evaluation. -/
instance {ε α : Type} [DecidableEq ε] [DecidableEq α] : DecidableEq (Except ε α) := fun a b =>
  match a, b with
  | .error e, .error f =>
    if h : e = f then .isTrue (congrArg Except.error h)
    else .isFalse (fun hh => h (by injection hh))
  | .ok x, .ok y =>
    if h : x = y then .isTrue (congrArg Except.ok h)
    else .isFalse (fun hh => h (by injection hh))
  | .error _, .ok _ => .isFalse (fun hh => Except.noConfusion hh)
  | .ok _, .error _ => .isFalse (fun hh => Except.noConfusion hh)

/-! Theorems. -/

/-- Claim C10: constructing a `Bill` whose `to_date` equals its
`from_date` fails with a division error regardless of the category,
because the per-day rate is computed before the category-membership
validation runs; no category error is reported for such a bill even
when the category is absent from the provider map. -/
theorem bill_make_empty_interval_is_division_error (category : String)
    (amount : ℚ) (d : Date) (property_object : Property) (uid : String) :
    Bill.make category amount d d property_object uid = .error .zeroDivision := by
  unfold Bill.make
  simp

/-- Claim C8: for the $100 electricity bill 2024-01-01 → 2024-01-31 on a
two-person property, a tenant resident the whole period owes $50.00 and
a tenant resident 2024-01-16 → 2024-01-31 (15 of 30 days) owes $25.00;
total collected is $75.00 and the reported difference is −$25.00. -/
theorem january_split_month_settlement :
    (Bill.make "electricity" 100 ⟨2024, 1, 1⟩ ⟨2024, 1, 31⟩ acmeProperty "b8").map
        (fun b => who_owes_what b [tenantAlice, tenantBella] ⟨2024, 2, 15⟩)
      = .ok (.ok ([⟨"alice", 30, 50⟩, ⟨"bella", 15, 25⟩], 75, -25)) := by
  with_unfolding_all decide

/-- Claim C1 (failing input): for the January 2024 bill and a tenant
whose tenancy 2024-01-10 → 2024-01-20 lies strictly inside the billing
interval, `Tenant.owes` does not produce the claimed clamped interval at
all: the `elif` chain assigns no `tenant_pays_to`, and the subtraction
line raises `UnboundLocalError`. -/
theorem owes_unbound_local_for_contained_tenancy :
    (Bill.make "electricity" 100 ⟨2024, 1, 1⟩ ⟨2024, 1, 31⟩ acmeProperty "b8").map
        (fun b => tenantBob.owes b ⟨2024, 2, 15⟩)
      = .ok (.error .unboundLocal) := by
  with_unfolding_all decide

/-- Claim C3 (counterexample): for a $0.25 gas bill over 2 days split
among 1 person, a tenant owing 1 day is charged
`round((1/2)·(0.25/1), 2)` = $0.12 by the code (Python `round` is
half-to-even), while the claimed round-half-up rule gives $0.13. -/
theorem share_rounds_half_even_not_half_up :
    (Bill.make "gas" (1 / 4) ⟨2024, 1, 1⟩ ⟨2024, 1, 3⟩ gasProperty "b3").map
        (fun b => tenantCarl.owes b ⟨2024, 2, 15⟩)
      = .ok (.ok (some ⟨"carl", 1, 12 / 100⟩))
    ∧ specRoundHalfUp2 (((1 : ℚ) / 2) * ((1 / 4) / 1)) = 13 / 100
    ∧ ((12 : ℚ) / 100) ≠ 13 / 100 := by
  refine ⟨?_, ?_, ?_⟩ <;> with_unfolding_all decide

/-- Claim C6 (counterexample): the category string `"Gas"` is not a key
of `gasProperty`'s provider map (whose only key is `"gas"`), yet bill
construction succeeds, because `Bill.__init__` looks up the lowercased
category; so "fails when the category is not a key" is false as stated. -/
theorem bill_make_succeeds_on_non_key_category :
    gasProperty.bill_types.lookup "Gas" = none
    ∧ (Bill.make "Gas" 10 ⟨2024, 1, 1⟩ ⟨2024, 1, 3⟩ gasProperty "b6").isOk = true := by
  refine ⟨?_, ?_⟩ <;> with_unfolding_all decide

/-- Claim C7 (counterexample): a bill with `to_date` 2024-01-01 strictly
before `from_date` 2024-01-02 is constructed successfully, and
`total_days` returns the value −1 rather than failing. -/
theorem total_days_returns_value_on_reversed_interval :
    (Bill.make "gas" 10 ⟨2024, 1, 2⟩ ⟨2024, 1, 1⟩ gasProperty "b7").map Bill.total_days
      = .ok (-1) := by
  with_unfolding_all decide

/-- If the paying interval computed by `owes` is empty or reversed, no
payee record is produced. -/
theorem owesPayee_eq_none (t : Tenant) (b : Bill) (pf pt : Int) (h : pt ≤ pf) :
    owesPayee t b pf pt = none := by
  simp only [owesPayee]
  rw [if_neg]
  omega

/-- A payee record produced by `owes`'s tail carries exactly the rounded
pro-rata share of its own day count. -/
theorem owesPayee_some_amount (t : Tenant) (b : Bill) (pf pt : Int) (p : Payee)
    (h : owesPayee t b pf pt = some p) :
    p.amount = pyRound2 (((p.days : ℚ) / (b.total_days : ℚ))
      * (b.amount / (b.num_people_in_house : ℚ))) := by
  simp only [owesPayee] at h
  split_ifs at h
  · injection h with h
    subst h
    rfl

/-- A tenant disjoint from the billing interval (given a well-formed
residency) is assigned no payee record by `owes`. -/
theorem owes_disjoint_none (t : Tenant) (b : Bill) (today : Date)
    (hwf : t.get_from_date.toOrdinal ≤ (t.get_to_date today).toOrdinal)
    (hdisj : b.to_date.toOrdinal < t.get_from_date.toOrdinal
      ∨ (t.get_to_date today).toOrdinal < b.from_date.toOrdinal) :
    t.owes b today = .ok none := by
  rcases hdisj with hd | hd <;>
    (simp only [Tenant.owes]
     split_ifs <;>
       first
       | (rw [owesPayee_eq_none]
          omega)
       | (exfalso
          omega))

/-- Prepending a tenant who owes nothing leaves the payee list alone. -/
theorem collectPayees_cons_none (bill : Bill) (today : Date) (t : Tenant)
    (ts : List Tenant) (h : t.owes bill today = .ok none) :
    collectPayees bill today (t :: ts) = collectPayees bill today ts := by
  simp only [collectPayees, h]
  cases hc : collectPayees bill today ts <;> rfl

/-- Skipping a tenant who owes nothing anywhere in the roster does not
change the collected payee list. -/
theorem collectPayees_skip (bill : Bill) (today : Date) (t : Tenant)
    (h : t.owes bill today = .ok none) (ts₁ ts₂ : List Tenant) :
    collectPayees bill today (ts₁ ++ t :: ts₂) = collectPayees bill today (ts₁ ++ ts₂) := by
  induction ts₁ with
  | nil =>
    simpa only [List.nil_append] using collectPayees_cons_none bill today t ts₂ h
  | cons t2 ts₁ ih =>
    simp only [List.cons_append, collectPayees, List.append_eq, ih]

/-- Claim C2: a tenant whose residency interval is disjoint from the
bill's billing interval (residency starts after the bill ends, or the
effective end is before the bill starts) is excluded from the payee list
entirely — `owes` yields no record for them, and the settlement over any
roster is unchanged by their presence. -/
theorem settle_excludes_disjoint_tenant (bill : Bill) (t : Tenant) (today : Date)
    (hwf : t.get_from_date.toOrdinal ≤ (t.get_to_date today).toOrdinal)
    (hdisj : bill.to_date.toOrdinal < t.get_from_date.toOrdinal
      ∨ (t.get_to_date today).toOrdinal < bill.from_date.toOrdinal) :
    t.owes bill today = .ok none ∧
    ∀ ts₁ ts₂ : List Tenant,
      who_owes_what bill (ts₁ ++ t :: ts₂) today = who_owes_what bill (ts₁ ++ ts₂) today := by
  have hnone := owes_disjoint_none t bill today hwf hdisj
  refine ⟨hnone, fun ts₁ ts₂ => ?_⟩
  unfold who_owes_what
  rw [collectPayees_skip bill today t hnone ts₁ ts₂]

/-- Witness for C2: the tenant arriving 2024-03-01, after the January
bill ends, is absent from the settlement (not listed at zero). -/
theorem settle_excludes_disjoint_tenant_witness :
    tenantDana.owes januaryBill ⟨2024, 2, 15⟩ = .ok none ∧
    who_owes_what januaryBill [tenantAlice, tenantDana] ⟨2024, 2, 15⟩
      = who_owes_what januaryBill [tenantAlice] ⟨2024, 2, 15⟩ :=
  ⟨(settle_excludes_disjoint_tenant januaryBill tenantDana ⟨2024, 2, 15⟩
      (by decide) (by decide)).1,
   (settle_excludes_disjoint_tenant januaryBill tenantDana ⟨2024, 2, 15⟩
      (by decide) (by decide)).2 [tenantAlice] []⟩

/-- Anatomy of a successful settlement: the payee list is exactly what
the per-tenant loop collected, the total is the sum of the collected
rounded shares, and the reported difference is `total - bill.amount`. -/
theorem who_owes_what_parts (bill : Bill) (tenants : List Tenant) (today : Date)
    (payees : List Payee) (total diff : ℚ)
    (h : who_owes_what bill tenants today = .ok (payees, total, diff)) :
    collectPayees bill today tenants = .ok payees ∧
    total = (payees.map Payee.amount).sum ∧
    diff = total - bill.amount := by
  unfold who_owes_what at h
  cases hc : collectPayees bill today tenants with
  | error e =>
    rw [hc] at h
    exact Except.noConfusion h
  | ok ps =>
    rw [hc] at h
    have h2 : (Except.ok (ps, (ps.map Payee.amount).sum, (ps.map Payee.amount).sum - bill.amount)
        : Except OwesError (List Payee × ℚ × ℚ)) = .ok (payees, total, diff) := h
    injection h2 with h3
    rw [Prod.mk.injEq, Prod.mk.injEq] at h3
    obtain ⟨rfl, rfl, rfl⟩ := h3
    exact ⟨rfl, rfl, rfl⟩

/-- Claim C4: for every settlement that completes, the reported
difference equals `total_collected - bill.amount`, where the total is
the plain sum of the individual rounded shares of the included tenants,
and the payee list is the unadjusted output of the per-tenant loop. -/
theorem difference_is_total_minus_amount (bill : Bill) (tenants : List Tenant)
    (today : Date) (payees : List Payee) (total diff : ℚ)
    (h : who_owes_what bill tenants today = .ok (payees, total, diff)) :
    diff = total - bill.amount ∧
    total = (payees.map Payee.amount).sum ∧
    collectPayees bill today tenants = .ok payees := by
  obtain ⟨h1, h2, h3⟩ := who_owes_what_parts bill tenants today payees total diff h
  exact ⟨h3, h2, h1⟩

/-- Witness for C4, at the January scenario: the reported difference
−25 is 75 − 100, and 75 is the sum of the listed shares. -/
theorem difference_is_total_minus_amount_witness :
    ((-25 : ℚ)) = 75 - januaryBill.amount ∧
    (75 : ℚ) = ([(⟨"alice", 30, 50⟩ : Payee), ⟨"bella", 15, 25⟩].map Payee.amount).sum ∧
    collectPayees januaryBill ⟨2024, 2, 15⟩ [tenantAlice, tenantBella]
      = .ok [⟨"alice", 30, 50⟩, ⟨"bella", 15, 25⟩] :=
  difference_is_total_minus_amount januaryBill [tenantAlice, tenantBella] ⟨2024, 2, 15⟩
    [⟨"alice", 30, 50⟩, ⟨"bella", 15, 25⟩] 75 (-25) (by with_unfolding_all decide)

/-- A payee record of a successful `owes` call carries the rounded
pro-rata share of its own day count. -/
theorem owes_ok_some_amount (t : Tenant) (b : Bill) (today : Date) (p : Payee)
    (h : t.owes b today = .ok (some p)) :
    p.amount = pyRound2 (((p.days : ℚ) / (b.total_days : ℚ))
      * (b.amount / (b.num_people_in_house : ℚ))) := by
  simp only [Tenant.owes] at h
  split_ifs at h <;>
    first
    | exact Except.noConfusion h
    | (injection h with h
       exact owesPayee_some_amount _ _ _ _ _ h)

/-- Every payee collected by the settlement loop carries the rounded
pro-rata share of its own day count. -/
theorem collectPayees_amount_formula (bill : Bill) (today : Date) :
    ∀ (ts : List Tenant) (ps : List Payee), collectPayees bill today ts = .ok ps →
      ∀ p ∈ ps, p.amount = pyRound2 (((p.days : ℚ) / (bill.total_days : ℚ))
        * (bill.amount / (bill.num_people_in_house : ℚ))) := by
  intro ts
  induction ts with
  | nil =>
    intro ps h
    have h2 : (Except.ok ([] : List Payee) : Except OwesError (List Payee)) = .ok ps := h
    injection h2 with h3
    subst h3
    intro p hp
    exact absurd hp (List.not_mem_nil p)
  | cons t ts ih =>
    intro ps h
    simp only [collectPayees] at h
    cases ho : t.owes bill today with
    | error e =>
      rw [ho] at h
      exact Except.noConfusion h
    | ok r =>
      rw [ho] at h
      cases hc : collectPayees bill today ts with
      | error e =>
        rw [hc] at h
        cases r <;> exact Except.noConfusion h
      | ok rest =>
        rw [hc] at h
        cases r with
        | none =>
          have h2 : (Except.ok rest : Except OwesError (List Payee)) = .ok ps := h
          injection h2 with h3
          subst h3
          exact ih rest hc
        | some p0 =>
          have h2 : (Except.ok (p0 :: rest) : Except OwesError (List Payee)) = .ok ps := h
          injection h2 with h3
          subst h3
          intro p hp
          rcases List.mem_cons.mp hp with rfl | hp2
          · exact owes_ok_some_amount t bill today p ho
          · exact ih rest hc p hp2

/-- Claim C3 (amended): every tenant included in a settlement is charged
`round((days_owing / total_days) * (amount / num_people_in_house), 2)`,
where the rounding is Python's `round` — round-half-to-even (banker's
rounding), not round-half-up. -/
theorem payee_share_is_round_half_even (bill : Bill) (tenants : List Tenant)
    (today : Date) (payees : List Payee) (total diff : ℚ)
    (h : who_owes_what bill tenants today = .ok (payees, total, diff)) :
    ∀ p ∈ payees, p.amount = pyRound2 (((p.days : ℚ) / (bill.total_days : ℚ))
      * (bill.amount / (bill.num_people_in_house : ℚ))) := by
  obtain ⟨hc, -, -⟩ := who_owes_what_parts bill tenants today payees total diff h
  exact collectPayees_amount_formula bill today tenants payees hc

/-- Witness for the amended C3, at the January scenario: bella's listed
$25.00 is the round-half-even share for her 15 days. -/
theorem payee_share_is_round_half_even_witness :
    Payee.amount ⟨"bella", 15, 25⟩
      = pyRound2 ((((15 : Int) : ℚ) / (januaryBill.total_days : ℚ))
        * (januaryBill.amount / (januaryBill.num_people_in_house : ℚ))) :=
  payee_share_is_round_half_even januaryBill [tenantAlice, tenantBella] ⟨2024, 2, 15⟩
    [⟨"alice", 30, 50⟩, ⟨"bella", 15, 25⟩] 75 (-25) (by with_unfolding_all decide)
    ⟨"bella", 15, 25⟩ (by decide)

/-- Claim C5: adding a bill equal (same category, amount, from and to
dates) to one already in the list is a no-op — the list is returned
unchanged and the user is notified of the duplicate — while a bill equal
to none of the stored bills is appended; re-adding an appended bill is
rejected, leaving exactly one stored copy. -/
theorem add_bill_duplicate_noop_else_append (property_conf : Property) (amount : ℚ)
    (start_date end_date : Date) (bill_type uid : String)
    (bill_list : List Bill) (b : Bill)
    (hmk : Bill.make bill_type amount start_date end_date property_conf uid = .ok b) :
    ((∃ o ∈ bill_list, billEq o b = true) →
      add_bill property_conf amount start_date end_date bill_type uid bill_list
        = .ok (bill_list, true)) ∧
    ((∀ o ∈ bill_list, billEq o b = false) →
      add_bill property_conf amount start_date end_date bill_type uid bill_list
        = .ok (bill_list ++ [b], false) ∧
      add_bill property_conf amount start_date end_date bill_type uid (bill_list ++ [b])
        = .ok (bill_list ++ [b], true) ∧
      ((bill_list ++ [b]).countP fun o => billEq o b) = 1) := by
  have hbb : billEq b b = true := by
    simp [billEq]
  constructor
  · rintro ⟨o, ho, heq⟩
    have hany : (bill_list.any fun other_bill => billEq other_bill b) = true :=
      List.any_eq_true.mpr ⟨o, ho, heq⟩
    unfold add_bill
    rw [hmk]
    simp [hany]
  · intro hall
    have hany : (bill_list.any fun other_bill => billEq other_bill b) = false := by
      rw [List.any_eq_false]
      intro o ho
      simp [hall o ho]
    have hcount0 : (bill_list.countP fun o => billEq o b) = 0 :=
      List.countP_eq_zero.mpr (fun o ho => by simp [hall o ho])
    have hany2 : ((bill_list ++ [b]).any fun other_bill => billEq other_bill b) = true :=
      List.any_eq_true.mpr ⟨b, by simp, hbb⟩
    refine ⟨?_, ?_, ?_⟩
    · unfold add_bill
      rw [hmk]
      simp [hany]
    · unfold add_bill
      rw [hmk]
      simp [hany2]
    · simp [List.countP_append, hcount0, List.countP_cons, hbb]

set_option maxRecDepth 8192 in
/-- Witness for C5: re-adding the January bill to a list already holding
it is rejected with a duplicate notification, while adding it to an
empty list appends it. -/
theorem add_bill_duplicate_noop_else_append_witness :
    add_bill acmeProperty 100 ⟨2024, 1, 1⟩ ⟨2024, 1, 31⟩ "electricity" "b8" [januaryBill]
      = .ok ([januaryBill], true) ∧
    add_bill acmeProperty 100 ⟨2024, 1, 1⟩ ⟨2024, 1, 31⟩ "electricity" "b8" []
      = .ok ([januaryBill], false) :=
  ⟨(add_bill_duplicate_noop_else_append acmeProperty 100 ⟨2024, 1, 1⟩ ⟨2024, 1, 31⟩
      "electricity" "b8" [januaryBill] januaryBill (by with_unfolding_all decide)).1
      ⟨januaryBill, by simp, by with_unfolding_all decide⟩,
   ((add_bill_duplicate_noop_else_append acmeProperty 100 ⟨2024, 1, 1⟩ ⟨2024, 1, 31⟩
      "electricity" "b8" [] januaryBill (by with_unfolding_all decide)).2
      (fun o ho => absurd ho (List.not_mem_nil o))).1⟩

/-- Claim C6 (amended): for a bill interval with `from_date < to_date`,
construction fails exactly when the LOWERCASED category is not a key of
the property's provider map, and succeeds — with the supplier resolved
from the map at the lowercased category — when it is. -/
theorem bill_make_checks_lowercased_category (category : String) (amount : ℚ)
    (from_date to_date : Date) (property_object : Property) (uid : String)
    (hlt : from_date.toOrdinal < to_date.toOrdinal) :
    (property_object.bill_types.lookup category.toLower = none →
      Bill.make category amount from_date to_date property_object uid
        = .error .invalidCategory) ∧
    (∀ sup, property_object.bill_types.lookup category.toLower = some sup →
      Bill.make category amount from_date to_date property_object uid
        = .ok ⟨category, amount, from_date, to_date,
            amount / ((((to_date.toOrdinal : Int) - (from_date.toOrdinal : Int)) : Int) : ℚ),
            property_object.tenant_count, sup, uid⟩) := by
  have htd : ((to_date.toOrdinal : Int) - (from_date.toOrdinal : Int)) ≠ 0 := by
    omega
  constructor
  · intro hnone
    simp only [Bill.make]
    rw [if_neg htd, hnone]
  · intro sup hsup
    simp only [Bill.make]
    rw [if_neg htd, hsup]

/-- Witness for the amended C6: the category string `"GAS"` resolves
through its lowercase form against the `"gas"` key of the provider map,
yielding a bill supplied by `"agl"`. -/
theorem bill_make_checks_lowercased_category_witness :
    Bill.make "GAS" 10 ⟨2024, 1, 1⟩ ⟨2024, 1, 3⟩ gasProperty "b6w"
      = .ok ⟨"GAS", 10, ⟨2024, 1, 1⟩, ⟨2024, 1, 3⟩,
          10 / (((((⟨2024, 1, 3⟩ : Date).toOrdinal : Int)
            - ((⟨2024, 1, 1⟩ : Date).toOrdinal : Int)) : Int) : ℚ),
          1, "agl", "b6w"⟩ :=
  (bill_make_checks_lowercased_category "GAS" 10 ⟨2024, 1, 1⟩ ⟨2024, 1, 3⟩
    gasProperty "b6w" (by decide)).2 "agl" (by with_unfolding_all decide)

/-- Claim C7 (amended): `total_days` never fails — it returns the signed
day difference.  When `to_date = from_date`, it is `Bill.__init__` that
fails, with a division error; when `to_date < from_date`, construction
can succeed and `total_days` returns a negative value. -/
theorem total_days_defined_on_nonpositive_interval (category : String) (amount : ℚ)
    (from_date to_date : Date) (property_object : Property) (uid : String)
    (hle : to_date.toOrdinal ≤ from_date.toOrdinal) :
    (to_date.toOrdinal = from_date.toOrdinal →
      Bill.make category amount from_date to_date property_object uid
        = .error .zeroDivision) ∧
    (∀ b, Bill.make category amount from_date to_date property_object uid = .ok b →
      b.total_days = (to_date.toOrdinal : Int) - (from_date.toOrdinal : Int) ∧
      b.total_days < 0) := by
  constructor
  · intro he
    simp only [Bill.make]
    rw [if_pos (by omega)]
  · intro b hb
    simp only [Bill.make] at hb
    by_cases he : ((to_date.toOrdinal : Int) - (from_date.toOrdinal : Int)) = 0
    · rw [if_pos he] at hb
      exact Except.noConfusion hb
    · rw [if_neg he] at hb
      cases hl : property_object.bill_types.lookup category.toLower with
      | none =>
        rw [hl] at hb
        exact Except.noConfusion hb
      | some sup =>
        rw [hl] at hb
        injection hb with hb
        subst hb
        refine ⟨rfl, ?_⟩
        show ((to_date.toOrdinal : Int) - (from_date.toOrdinal : Int)) < 0
        omega

/-- Witness for the amended C7: at the empty interval 2024-01-02 →
2024-01-02 construction stops with the division error. -/
theorem total_days_defined_on_nonpositive_interval_witness :
    Bill.make "gas" 10 ⟨2024, 1, 2⟩ ⟨2024, 1, 2⟩ gasProperty "b7w"
      = .error .zeroDivision :=
  (total_days_defined_on_nonpositive_interval "gas" 10 ⟨2024, 1, 2⟩ ⟨2024, 1, 2⟩
    gasProperty "b7w" (by decide)).1 (by decide)

/-- Reloading serialized bills against the same property reproduces
them, provided each stored bill is a fixed point of `Bill.__init__` for
that property (which every bill constructed against it is). -/
theorem loadBills_map_to_json (property_conf : Property) :
    ∀ bills : List Bill,
      (∀ b ∈ bills,
        Bill.make b.category b.amount b.from_date b.to_date property_conf b.unique_id
          = .ok b) →
      loadBills property_conf (bills.map Bill.to_json) = .ok bills := by
  intro bills
  induction bills with
  | nil => intro _; rfl
  | cons b bs ih =>
    intro hb
    have hbl := hb b (List.mem_cons_self b bs)
    have hrest := ih (fun x hx => hb x (List.mem_cons_of_mem b hx))
    simp only [List.map_cons, Bill.to_json, loadBills, hbl, hrest]

/-- Tenant serialization followed by reconstruction is the identity. -/
theorem map_tenantOfJson_to_json :
    ∀ ts : List Tenant, (ts.map Tenant.to_json).map tenantOfJson = ts := by
  intro ts
  induction ts with
  | nil => rfl
  | cons t ts ih =>
    simp only [List.map_cons]
    rw [ih]
    rfl

/-- Computation of `load_json` once the bill loop is known to succeed. -/
theorem load_json_eq (s : StoreJson) (bl : List Bill)
    (h : loadBills ⟨s.property.name, s.property.tenant_count, s.property.bill_types⟩ s.bills
      = .ok bl) :
    load_json s = .ok (s.tenants.map tenantOfJson,
      ⟨s.property.name, s.property.tenant_count, s.property.bill_types⟩, bl) := by
  simp only [load_json, h]

/-- Claim C9: saving a property, tenant list and bill list with
`save_json` and reloading with `load_json` reproduces all of them with
identical field values, whenever each bill was constructed against the
saved property (so that `Bill.__init__` re-validates and re-resolves its
supplier to the same values on reload). -/
theorem save_load_round_trip (tenant_list : List Tenant) (property_conf : Property)
    (bill_list : List Bill)
    (hb : ∀ b ∈ bill_list,
      Bill.make b.category b.amount b.from_date b.to_date property_conf b.unique_id
        = .ok b) :
    load_json (save_json tenant_list property_conf bill_list)
      = .ok (tenant_list, property_conf, bill_list) := by
  have h1 : loadBills
      ⟨(save_json tenant_list property_conf bill_list).property.name,
       (save_json tenant_list property_conf bill_list).property.tenant_count,
       (save_json tenant_list property_conf bill_list).property.bill_types⟩
      (save_json tenant_list property_conf bill_list).bills = .ok bill_list := by
    show loadBills ⟨property_conf.name, property_conf.tenant_count, property_conf.bill_types⟩
      (bill_list.map Bill.to_json) = .ok bill_list
    exact loadBills_map_to_json property_conf bill_list hb
  rw [load_json_eq (save_json tenant_list property_conf bill_list) bill_list h1]
  have hT : (save_json tenant_list property_conf bill_list).tenants.map tenantOfJson
      = tenant_list := map_tenantOfJson_to_json tenant_list
  rw [hT]
  rfl

set_option maxRecDepth 8192 in
/-- Witness for C9: a one-tenant, one-bill household survives the
save/load round trip unchanged. -/
theorem save_load_round_trip_witness :
    load_json (save_json [tenantAlice] acmeProperty [januaryBill])
      = .ok ([tenantAlice], acmeProperty, [januaryBill]) :=
  save_load_round_trip [tenantAlice] acmeProperty [januaryBill]
    (by with_unfolding_all decide)

end BillCalc
